import Mathlib

/-!
Shallow embedding of `src-tauri/python/src/__init__.py` of the tauri-py
repository, together with proofs of the specification's claims about its
three functions: a greeting formatter, integer addition, and a division
that signals a zero divisor by an absent value.

The Python float produced by true division is modelled as an exact
rational number: the specification reads the quotient only up to
floating-point representation of the true quotient, and the true quotient
of two integers is a rational.
-/

namespace Py

/-- Embedding of the Python function `greet`: it formats the fixed
template around the given name. -/
def greet (name : String) : String :=
  "Hello, " ++ name ++ "! You have been greeted from Python!"

/-- Embedding of the Python function `sum`: exact integer addition
(Python integers are arbitrary precision). -/
def sum (a b : ℤ) : ℤ :=
  a + b

/-- Embedding of the Python function `division`: when the divisor is zero
it returns the absent value `none`; otherwise it returns the true quotient
of the two integers as a rational number. -/
def division (a b : ℤ) : Option ℚ :=
  if b = 0 then none else some ((a : ℚ) / (b : ℚ))

/-- Outcome of a call to the Python `division` with the fault path
included: a normal return (of `None` or a float value), or the
`OverflowError` that CPython integer true division raises when the
quotient exceeds the double range. -/
inductive PyDivResult
  | ret (v : Option ℚ)
  | overflowError
  deriving DecidableEq

/-- Faithful embedding of the Python function `division` including
CPython fault semantics: `int.__truediv__` computes the correctly
rounded double of the true quotient and raises `OverflowError` when that
rounding overflows, which under round-to-nearest-even happens exactly
when the magnitude of the true quotient reaches `2 ^ 1024 - 2 ^ 970`
(the midpoint above the largest finite double `2 ^ 1024 - 2 ^ 971`).
For a nonzero divisor the condition `2 ^ 1024 - 2 ^ 970 ≤ |a / b|` is
expressed integrally as `(2 ^ 1024 - 2 ^ 970) * |b| ≤ |a|`. The value
branch is, as in `division`, the exact rational quotient that the
returned float represents up to rounding. -/
def divisionCPython (a b : ℤ) : PyDivResult :=
  if b = 0 then .ret none
  else if (2 ^ 1024 - 2 ^ 970) * b.natAbs ≤ a.natAbs then .overflowError
  else .ret (some ((a : ℚ) / (b : ℚ)))

/-- C1: for every string `s`, `greet s` is exactly the template
`"Hello, " ++ s ++ "! You have been greeted from Python!"`, and in
particular `s` occurs verbatim inside the result. -/
theorem greet_template (s : String) :
    greet s = "Hello, " ++ s ++ "! You have been greeted from Python!" ∧
      ∃ p q : String, greet s = p ++ s ++ q :=
  ⟨rfl, "Hello, ", "! You have been greeted from Python!", rfl⟩

/-- C2: for all integers `a`, `b` with `b ≠ 0`, `division a b` returns the
true quotient `a / b` (as an exact rational, which is what the
floating-point result represents up to rounding). -/
theorem division_exact (a b : ℤ) (h : b ≠ 0) :
    division a b = some ((a : ℚ) / (b : ℚ)) := by
  simp [division, h]

/-- Witness for C2 at the concrete input `a = 7`, `b = 2`. -/
theorem division_exact_witness :
    (2 : ℤ) ≠ 0 ∧ division 7 2 = some ((7 : ℚ) / (2 : ℚ)) :=
  ⟨by decide, division_exact 7 2 (by decide)⟩

/-- C3: for every integer `a`, dividing by zero returns the absent value. -/
theorem division_by_zero (a : ℤ) : division a 0 = none := by
  simp [division]

set_option maxRecDepth 16384 in
/-- C4 counterexample: at the concrete input `a = 10 ^ 309`, `b = 1` the
divisor is nonzero and yet the call faults with `OverflowError` (CPython
integer true division of a quotient beyond the double range), so the
zero-divisor branch is not the only error condition and `division` does
not run fault-free on every integer pair. -/
theorem division_overflow_cex :
    divisionCPython (10 ^ 309) 1 = PyDivResult.overflowError ∧ (1 : ℤ) ≠ 0 := by
  constructor
  · decide
  · decide

/-- C4 amended: the absent value is returned exactly when `b = 0`; for a
nonzero divisor the call returns the float quotient when the magnitude of
the true quotient is below the double overflow threshold, but raises
`OverflowError` when `(2 ^ 1024 - 2 ^ 970) * natAbs b ≤ natAbs a`, so
division by zero is the only condition signalled by absence but not the
only fault-free error condition of the program. -/
theorem division_amended (a b : ℤ) :
    (divisionCPython a b = .ret none ↔ b = 0) ∧
      (b ≠ 0 → a.natAbs < (2 ^ 1024 - 2 ^ 970) * b.natAbs →
        divisionCPython a b = .ret (some ((a : ℚ) / (b : ℚ)))) ∧
      (b ≠ 0 → (2 ^ 1024 - 2 ^ 970) * b.natAbs ≤ a.natAbs →
        divisionCPython a b = .overflowError) := by
  refine ⟨?_, ?_, ?_⟩
  · by_cases h : b = 0
    · simp [divisionCPython, h]
    · by_cases h2 : (2 ^ 1024 - 2 ^ 970) * b.natAbs ≤ a.natAbs <;>
        simp [divisionCPython, h, h2]
  · intro h h2
    simp [divisionCPython, h, Nat.not_le.mpr h2]
  · intro h h2
    simp [divisionCPython, h, h2]

set_option maxRecDepth 16384 in
/-- Witness for C4's amended theorem at the concrete inputs `(7, 0)`,
`(7, 2)` and `(10 ^ 309, 1)`, exercising all three branches. -/
theorem division_amended_witness :
    (divisionCPython 7 0 = .ret none ↔ (0 : ℤ) = 0) ∧
      divisionCPython 7 2 = .ret (some ((7 : ℚ) / (2 : ℚ))) ∧
      divisionCPython (10 ^ 309) 1 = .overflowError :=
  ⟨(division_amended 7 0).1,
    (division_amended 7 2).2.1 (by decide) (by decide),
    (division_amended (10 ^ 309) 1).2.2 (by decide) (by decide)⟩

/-- C5: for all integers `a`, `b`, `sum a b` is the integer sum `a + b`. -/
theorem sum_correct (a b : ℤ) : sum a b = a + b :=
  rfl

/-- C6: addition as implemented is commutative: `sum a b = sum b a`, and
both equal `b + a`. -/
theorem sum_comm (a b : ℤ) : sum a b = sum b a ∧ sum a b = b + a :=
  ⟨Int.add_comm a b, Int.add_comm a b⟩

/-- C7: the three operations are deterministic and depend only on their
arguments: equal inputs give identical results on any two calls. -/
theorem ops_deterministic (s₁ s₂ : String) (a₁ a₂ b₁ b₂ : ℤ)
    (hs : s₁ = s₂) (ha : a₁ = a₂) (hb : b₁ = b₂) :
    greet s₁ = greet s₂ ∧ sum a₁ b₁ = sum a₂ b₂ ∧
      division a₁ b₁ = division a₂ b₂ := by
  subst hs; subst ha; subst hb
  exact ⟨rfl, rfl, rfl⟩

/-- Witness for C7 at the concrete inputs `"world"`, `3`, `5`. -/
theorem ops_deterministic_witness :
    greet "world" = greet "world" ∧ sum 3 5 = sum 3 5 ∧
      division 3 5 = division 3 5 :=
  ops_deterministic "world" "world" 3 3 5 5 rfl rfl rfl

/-- C8: `sum` and `greet` are total: every pair of integers has a sum and
every string has a greeting, with no error condition. -/
theorem sum_greet_total (a b : ℤ) (s : String) :
    (∃ n : ℤ, sum a b = n) ∧ (∃ g : String, greet s = g) :=
  ⟨⟨a + b, rfl⟩, ⟨greet s, rfl⟩⟩

/-- C9: `sum` operates on arbitrary-precision integers: for all integers
`a` and `b` — however large in magnitude and of either sign, since `ℤ` is
unbounded — the result is the exact mathematical sum, and both operands
are recoverable from it, so no overflow, wraparound or precision loss
occurs. -/
theorem sum_arbitrary_precision (a b : ℤ) :
    sum a b = a + b ∧ sum a b - b = a ∧ sum a b - a = b := by
  have h : sum a b = a + b := rfl
  exact ⟨h, by omega, by omega⟩

/-- C10: `greet` is injective: equal greetings come from equal names. -/
theorem greet_injective (s₁ s₂ : String) (h : greet s₁ = greet s₂) :
    s₁ = s₂ := by
  have hd : ("Hello, " ++ s₁ ++ "! You have been greeted from Python!").data =
      ("Hello, " ++ s₂ ++ "! You have been greeted from Python!").data :=
    congrArg String.data h
  simp only [String.data_append, List.append_assoc] at hd
  have h1 := List.append_cancel_left hd
  have h2 : s₁.data = s₂.data := List.append_cancel_right h1
  cases s₁; cases s₂
  exact congrArg String.mk h2

/-- Witness for C10: applying injectivity at the concrete equal inputs
`"Alice"` and `"Alice"`. -/
theorem greet_injective_witness : "Alice" = "Alice" :=
  greet_injective "Alice" "Alice" rfl

end Py
